import Mathlib

/-!
Verification of the transcript-reconstruction core of the cr_miraheze_scripts
repository, shallowly embedded in Lean 4.

Strings are modelled as `List Char` (`Str`).  Python string operations that the
source uses (`strip`, `lower`, `splitlines`, `split`, `replace`, `count`,
`find`, `rfind`, `rsplit`, `in`, `startswith`) are embedded below; recursion that
consumes a pattern-length prefix at each step is driven by an explicit fuel
argument equal to the string length, which always suffices because each step
consumes at least one character, keeping every definition structurally
recursive and kernel-evaluable.

Scope notes on the embedding:
* character predicates (`isalpha`, `islower`, `isupper`, `lower`) are modelled
  on the ASCII range, which covers every string the default-language pipeline
  manipulates;
* `str.splitlines` is modelled as splitting on `'\n'` (the only line terminator
  produced by the pipeline's own string building);
* the regular expressions of the source are literal-heavy; each one is embedded
  as a dedicated decidable matcher, documented at its definition.
-/

abbrev Str := List Char

/-- Characters Python `str.strip()` removes (ASCII whitespace). -/
def isWsChar (c : Char) : Bool :=
  c = ' ' || c = '\t' || c = '\n' || c = '\r' || c = '\x0b' || c = '\x0c'

/-- Python `s.strip()`. -/
def pyStrip (s : Str) : Str :=
  ((s.dropWhile isWsChar).reverse.dropWhile isWsChar).reverse

/-- Python `pat in s` (substring containment; the empty pattern is contained
in every string). -/
def containsSub : Str → Str → Bool
  | [], pat => pat.isEmpty
  | c :: rest, pat => pat.isPrefixOf (c :: rest) || containsSub rest pat

/-- Python `s.split(sep)` for a one-character separator: always returns a
non-empty list of (possibly empty) pieces. -/
def splitChar (sep : Char) : Str → List Str
  | [] => [[]]
  | c :: rest =>
    if c = sep then [] :: splitChar sep rest
    else
      match splitChar sep rest with
      | [] => [[c]]
      | p :: ps => (c :: p) :: ps

/-- Python `s.splitlines()` restricted to `'\n'` terminators: empty string
gives `[]`, and a trailing terminator does not produce a final empty line. -/
def pySplitlines (s : Str) : List Str :=
  if s = [] then []
  else if s.getLast? = some '\n' then (splitChar '\n' s).dropLast
  else splitChar '\n' s

/-- Python `sep.join(xs)`. -/
def pyJoin (sep : Str) (xs : List Str) : Str :=
  List.intercalate sep xs

/-- Python `s.split()`: split on whitespace runs, dropping empty words. -/
def pySplitWs : Str → List Str
  | [] => []
  | c :: rest =>
    if isWsChar c then pySplitWs rest
    else
      match pySplitWs rest with
      | [] => [[c]]
      | w :: ws =>
        match rest with
        | [] => [[c]]
        | d :: _ => if isWsChar d then [c] :: w :: ws else (c :: w) :: ws

/-- Fuel-driven worker for `pyReplace`; consumes at least one character of the
subject per step, so fuel `s.length` is always enough. -/
def pyReplaceAux (pat rep : Str) : Nat → Str → Str
  | _, [] => []
  | 0, s => s
  | fuel + 1, c :: rest =>
    if !pat.isEmpty && pat.isPrefixOf (c :: rest) then
      rep ++ pyReplaceAux pat rep fuel (rest.drop (pat.length - 1))
    else c :: pyReplaceAux pat rep fuel rest

/-- Python `s.replace(pat, rep)`: replace every non-overlapping occurrence left
to right.  (The source only calls `replace` with non-empty patterns, which is
the case this embedding covers; an empty pattern leaves the string unchanged.) -/
def pyReplace (s pat rep : Str) : Str :=
  pyReplaceAux pat rep s.length s

/-- Fuel-driven worker for `pyCount`. -/
def pyCountAux (pat : Str) : Nat → Str → Nat
  | _, [] => 0
  | 0, _ => 0
  | fuel + 1, c :: rest =>
    if pat.isPrefixOf (c :: rest) then
      1 + pyCountAux pat fuel (rest.drop (pat.length - 1))
    else pyCountAux pat fuel rest

/-- Python `s.count(pat)`: non-overlapping occurrences, scanning left to
right; the empty pattern counts `len(s) + 1` occurrences. -/
def pyCount (s pat : Str) : Nat :=
  if pat.isEmpty then s.length + 1 else pyCountAux pat s.length s

/-- Python `s.find(pat)`: index of the leftmost occurrence, `-1` if absent. -/
def pyFind (s pat : Str) : Int :=
  match (List.range (s.length + 1)).find? (fun i => pat.isPrefixOf (s.drop i)) with
  | some i => (i : Int)
  | none => -1

/-- Python `s.rfind(pat)`: index of the rightmost occurrence, `-1` if absent. -/
def pyRFind (s pat : Str) : Int :=
  match ((List.range (s.length + 1)).filter (fun i => pat.isPrefixOf (s.drop i))).getLast? with
  | some i => (i : Int)
  | none => -1

/-- Python `s.rsplit(pat, 1)` for a non-empty pattern: split at the rightmost
occurrence, or return the whole string when the pattern is absent. -/
def pyRsplit1 (s pat : Str) : List Str :=
  match ((List.range (s.length + 1)).filter (fun i => pat.isPrefixOf (s.drop i))).getLast? with
  | some i => [s.take i, s.drop (i + pat.length)]
  | none => [s]

/-- Python `s.capitalize()` (ASCII): first character upper-cased, the rest
lower-cased. -/
def pyCapitalize : Str → Str
  | [] => []
  | c :: rest => c.toUpper :: rest.map Char.toLower

/-- Python `s.lower()` (ASCII). -/
def pyLower (s : Str) : Str := s.map Char.toLower

/-- Python `set(v)` observed as a list: deduplication keeping first
occurrences.  (CPython set iteration order is unspecified; wherever the source
iterates over a set whose order can reach the output, the concrete inputs used
in the theorems below make that set a singleton, so this choice is faithful.) -/
def pySetAux [DecidableEq α] (seen : List α) : List α → List α
  | [] => []
  | a :: as => if a ∈ seen then pySetAux seen as else a :: pySetAux (a :: seen) as

def pySet [DecidableEq α] (l : List α) : List α := pySetAux [] l

/-- Concatenation of the images of a list, used for Python loops that extend
an output list per input element. -/
def concatMap (f : α → List β) : List α → List β
  | [] => []
  | a :: as => f a ++ concatMap f as


/-! ## Embedded regular-expression matchers

Each matcher embeds one literal regex of the source.  `.` never matches a
newline (no DOTALL flag is used in the source), `\s` is the whitespace class,
and `^`/`$` anchor at the ends of the subject (no MULTILINE flag). -/

/-- `\s*:` — optional whitespace then a literal colon. -/
def wsThenColon : Str → Bool
  | ':' :: _ => true
  | c :: rest => isWsChar c && wsThenColon rest
  | [] => false

/-- Helper for `speakerMatch`: somewhere in the remainder (with no newline
before it) an uppercase ASCII letter followed by `\s*:`. -/
def upperColonScan : Str → Bool
  | [] => false
  | c :: rest => (c.isUpper && wsThenColon rest) || (c != '\n' && upperColonScan rest)

/-- `re.search('^[A-Z].*?[A-Z]\s*:', line)` truthiness: the line starts with an
uppercase ASCII letter and a later uppercase letter is followed by optional
whitespace and a colon, with no newline in between. -/
def speakerMatch : Str → Bool
  | [] => false
  | c :: rest => c.isUpper && upperColonScan rest

/-- `re.match('^\(', line)` truthiness. -/
def startsParen : Str → Bool
  | '(' :: _ => true
  | _ => false

/-- `re.match('^\(.*?\)$', s)` truthiness on a newline-free subject: an opening
parenthesis, then anything without a newline, then a closing parenthesis at the
very end. -/
def parenLineMatch : Str → Bool
  | '(' :: rest =>
    !rest.isEmpty && rest.getLastD ' ' = ')' && rest.dropLast.all (· != '\n')
  | _ => false

/-- `re.match('^([A-Z]{2}|\()', s)` truthiness: two leading uppercase ASCII
letters, or a leading opening parenthesis. -/
def startsTwoUpperOrParen : Str → Bool
  | c :: d :: _ => (c.isUpper && d.isUpper) || c = '('
  | [c] => c = '('
  | [] => false

/-- `re.search(':$', s)` truthiness on a newline-free subject. -/
def endsWithColon (s : Str) : Bool :=
  !s.isEmpty && s.getLastD ' ' = ':'

/-- After an opening `<!--`, find the earliest closing `-->` with no newline
before it (the lazy `.*?` of the comment regex); returns the remainder after
the close, or `none` when the comment regex cannot match at this position. -/
def commentClose : Str → Option Str
  | '-' :: '-' :: '>' :: rest => some rest
  | '\n' :: _ => none
  | _ :: rest => commentClose rest
  | [] => none

/-- Fuel-driven worker for `removeComments`. -/
def removeCommentsAux : Nat → Str → Str
  | _, [] => []
  | 0, s => s
  | fuel + 1, '<' :: '!' :: '-' :: '-' :: rest =>
    (match commentClose rest with
     | some rem => removeCommentsAux fuel rem
     | none => '<' :: removeCommentsAux fuel ('!' :: '-' :: '-' :: rest))
  | fuel + 1, c :: rest => c :: removeCommentsAux fuel rest

/-- `re.sub('<\!--.*?-->', '', line)`: delete every (newline-free, lazily
matched) comment span, scanning left to right. -/
def removeComments (s : Str) : Str :=
  removeCommentsAux s.length s


/-! ## Constants and external collaborators of `cr_modules/transcript.py` -/

/-- `BREAK_PHRASES` (cr_modules/transcript.py). -/
def BREAK_PHRASES : List Str :=
  ["our break".data, "we\x27ll take a break".data, "go to break".data,
   "we\x27re going to break".data, "after the break".data,
   "we\x27re going to take a break".data, "after we take a break".data,
   "take an early break".data, "go ahead and take a break".data,
   "back here in a few minutes".data, "back in a few minutes".data,
   "see you here in a few minutes".data, "see you in a few minutes".data]

/-- `DURING_BREAK_PHRASES` (cr_modules/transcript.py). -/
def DURING_BREAK_PHRASES : List Str :=
  ["hey critters! laura bailey here".data, "open your heart to chaos".data,
   "hi critters, sam riegel here".data, "chop it off. let\x27s do it.".data,
   "(gale laughing) later, chudruckers!".data]

/-- `SPEAKER_TAGS` (cr.py).  The `YoutubeTranscript` pipeline reads its tag set
from the external `ActorData` collaborator (`Module:ActorData`, fetched from
the wiki and absent from the repository source); the spec describes it as an
externally supplied read-only set of uppercase labels.  All embedded
definitions therefore take the tag set as a parameter, and the concrete
theorems instantiate it with this list from cr.py. -/
def SPEAKER_TAGS : List Str :=
  ["ASHLEY".data, "LAURA".data, "LIAM".data, "MARISHA".data, "MATT".data,
   "SAM".data, "TALIESIN".data, "TRAVIS".data, "ALL".data, "AABRIA".data,
   "ANJALI".data, "BRENNAN".data, "CHRISTIAN".data, "DANI".data, "ERIKA".data,
   "ROBBIE".data]

/-- The episode data the transcript pipeline reads: `ep.prefix` (named
`prefixCode` here) and `ep.transcript_category`.  Episode-code parsing (class
`Ep` of cr_modules/cr.py) is an external collaborator per the spec. -/
structure EpM where
  prefixCode : Str
  transcript_category : Str
deriving DecidableEq, Repr

/-- Python exceptions that the embedded code can raise. -/
inductive PyErr where
  | assertionError
  | unboundLocalError
deriving DecidableEq, Repr

/-- Result of running a piece of embedded Python: a value or a raised
exception. -/
inductive PyResult (α : Type) where
  | ok (a : α)
  | err (e : PyErr)
deriving DecidableEq, Repr

/-- The value of an `ok` result (the empty string for `err`), used to name
concrete pipeline outputs in closed theorems. -/
def okStr : PyResult Str → Str
  | .ok s => s
  | .err _ => []

/-- `wikify_html_string` (cr.py): italics/bold html to wiki quotes, then the
three escaped-character fixes, in source order.  The source's two
`re.sub('</?i>', ...)` / `re.sub('</?b>', ...)` passes are embedded as
sequential literal replacements; this is equivalent because neither pattern
overlaps the other and the replacement text can complete no new match. -/
def wikify_html_string (s : Str) : Str :=
  let s := pyReplace s "</i>".data "\x27\x27".data
  let s := pyReplace s "<i>".data "\x27\x27".data
  let s := pyReplace s "</b>".data "\x27\x27\x27".data
  let s := pyReplace s "<b>".data "\x27\x27\x27".data
  let s := pyReplace s "&amp;".data "&".data
  let s := pyReplace s "&nbsp;".data " ".data
  let s := pyReplace s "&quot;".data "\"".data
  s

/-- `welcome_back(line)` for the default language: `'welcome back' in
line.lower()`. -/
def welcome_back (line : Str) : Bool :=
  containsSub (pyLower line) "welcome back".data

/-- `break_criteria_1`: the moderator announces a break. -/
def break_criteria_1 (line : Str) (break_taken during_break : Bool) : Bool :=
  !break_taken && !during_break && "MATT:".data.isPrefixOf line &&
    BREAK_PHRASES.any (fun x => containsSub (pyLower line) x)

/-- `break_criteria_2`: a capitalized speaker name with a colon appears. -/
def break_criteria_2 (tags : List Str) (line : Str) (break_taken during_break : Bool) : Bool :=
  !break_taken && !during_break &&
    tags.any (fun x => containsSub line (pyCapitalize x ++ [':']))

/-- `break_criteria_3`: a known during-break catchphrase appears. -/
def break_criteria_3 (line : Str) (break_taken during_break : Bool) : Bool :=
  !break_taken && !during_break &&
    DURING_BREAK_PHRASES.any (fun x => containsSub (pyLower line) x)

/-- Loop state of `Breakfinder.find_break`: the two flags, the four
line-rewriting slots, the `break_found` attribute, and whether the Python
`break` statement has ended the loop. -/
structure FBScan where
  break_taken : Bool
  during_break : Bool
  old_first : Str
  new_first : Str
  old_last : Str
  new_last : Str
  found : Bool
  stopped : Bool
deriving DecidableEq, Repr

/-- One iteration of the `find_break` loop at line index `i`. -/
def find_break_step (bf : Str → Bool → Bool → Bool) (lines : List Str)
    (st : FBScan) (i : Nat) : FBScan :=
  if st.stopped then st
  else
    let line := lines.getD i []
    if bf line st.break_taken st.during_break then
      { st with during_break := true, old_first := line,
                new_first := line ++ "\n\n<!-- BREAK BEGINS\n".data,
                found := true }
    else if st.during_break && "MATT:".data.isPrefixOf line && welcome_back line then
      let next_lines := pyJoin "\n".data ((lines.drop (i + 1)).take 4)
      let old_last := pyJoin "\n".data [line, next_lines]
      { st with during_break := false, break_taken := true,
                old_last := old_last,
                new_last := "BREAK ENDS -->\n\n== Part II ==\n\n".data ++ old_last,
                stopped := true }
    else st

/-- `Breakfinder.find_break`: returns the revised transcript and the updated
`break_found` flag. -/
def find_break (bf : Str → Bool → Bool → Bool) (transcript : Str)
    (break_found : Bool) : Str × Bool :=
  if break_found then (transcript, break_found)
  else
    let lines := pySplitlines transcript
    let st := (List.range lines.length).foldl (find_break_step bf lines)
      ⟨false, false, [], [], [], [], false, false⟩
    let r := transcript
    let r := if st.old_first ≠ [] ∧ st.new_first ≠ [] then pyReplace r st.old_first st.new_first else r
    let r := if st.old_last ≠ [] ∧ st.new_last ≠ [] then pyReplace r st.old_last st.new_last else r
    (r, st.found)

/-- `Breakfinder.__post_init__`: the three-criteria cascade, then the
assertion that the revision is unchanged or contains `BREAK ENDS`; on
assertion failure the revision is discarded for prefix-`M` episodes and the
`AssertionError` is re-raised otherwise. -/
def breakfinder_revised (tags : List Str) (transcript : Str) : Str :=
  let p1 := find_break break_criteria_1 transcript false
  let p2 := if !p1.2 then find_break (break_criteria_2 tags) transcript p1.2 else p1
  let p3 := if !p2.2 then find_break break_criteria_3 transcript p2.2 else p2
  p3.1

def breakfinder (tags : List Str) (transcript : Str) (ep : EpM) : PyResult Str :=
  let r := breakfinder_revised tags transcript
  if r = transcript ∨ containsSub r "BREAK ENDS".data then .ok r
  else if ep.prefixCode = "M".data ∧ transcript ≠ r then .ok transcript
  else .err .assertionError

/-! ## The `YoutubeTranscript` pipeline (cr_modules/transcript.py), embedded
for the default language `'en'`. -/

/-- One raw caption record as consumed by `divide_captions_by_speaker`: the
`text` and `start` fields (the `duration` field is never read).  `start` is a
rational number standing for the track's numeric timestamp. -/
structure CaptionM where
  text : Str
  start : ℚ
deriving DecidableEq, Repr

/-- Python `int()` applied to a numeric value: truncation toward zero. -/
def pyInt (q : ℚ) : Int :=
  if q < 0 then ⌈q⌉ else ⌊q⌋

/-- The sub-lines `divide_captions_by_speaker` extracts from one caption:
split on embedded newlines (stripping each piece) when the last sub-line
starts a fresh speaker/description, otherwise the whole text with newlines
flattened to spaces. -/
def caption_sublines (cap : CaptionM) : List Str :=
  let ls := (splitChar '\n' cap.text).map pyStrip
  if !startsTwoUpperOrParen (ls.getLastD []) then
    [cap.text.map (fun c => if c = '\n' then ' ' else c)]
  else ls

/-- `divide_captions_by_speaker`: every sub-line of a caption carries that
caption's `int(start)`. -/
def divide_captions_by_speaker (captions : List CaptionM) : List (Str × Int) :=
  concatMap (fun cap =>
    (caption_sublines cap).map (fun l => (l, pyInt cap.start))) captions

/-- Output of `flag_duplicate_captions`: the forward line stream
(`preprocessed_captions`) and the recorded duplicate marks
(`self.dupe_lines[language]`, as built by one call on a fresh instance). -/
structure FlagAcc where
  pre : List Str
  dupes : List (Str × Int)
deriving DecidableEq, Repr

/-- The comment wrapper applied to a detected duplicate line. -/
def dupeWrap (line : Str) : Str :=
  "<!-- DUPLICATE ".data ++ line ++ "-->".data

/-- The duplicate decision of `flag_duplicate_captions` for a (non-blank)
line against the preceding line's text: music lines are exempt, otherwise
exact equality or agreement of the alphabetic characters with length over
ten, and never for parenthetical lines. -/
def flag_dupe_test (line prevLine : Str) : Bool :=
  if containsSub line "♪".data then false
  else if line = prevLine ∧ !startsParen line then true
  else if !startsParen line then
    let t1 := line.filter Char.isAlpha
    let t2 := prevLine.filter Char.isAlpha
    t1 = t2 ∧ t1.length > 10
  else false

/-- One iteration of the `flag_duplicate_captions` loop at index `i`.  Note
that the source reads `caption_lines[i-1]`, which for `i = 0` is Python's
index `-1`: the **last** element of the list. -/
def flag_step (cl : List (Str × Int)) (acc : FlagAcc) (i : Nat) : FlagAcc :=
  let line := (cl.getD i ([], 0)).1
  let prev := if i = 0 then cl.getLastD ([], 0) else cl.getD (i - 1) ([], 0)
  if pyStrip line = [] then acc
  else if flag_dupe_test line prev.1 then
    { pre := acc.pre ++ [dupeWrap line],
      dupes := acc.dupes ++ [(wikify_html_string (dupeWrap line), prev.2)] }
  else { pre := acc.pre ++ [line], dupes := acc.dupes }

/-- `flag_duplicate_captions` on a fresh instance (`dupe_lines[language]`
starts empty). -/
def flag_duplicate_captions (cl : List (Str × Int)) : FlagAcc :=
  (List.range cl.length).foldl (flag_step cl) ⟨[], []⟩

/-- State threaded through the `combine_preprocessed_captions` loop. -/
structure CombState where
  during_intro : Bool
  intro_done : Bool
  active_quote : Bool
  fixed_lines : List Str
  line_in_progress : Str
deriving DecidableEq, Repr

/-- The two in-loop rewritings of `line` before the speaker test: strip a
leading quote while a quotation is open, then prepend the
missing-speaker-tag comment when a tag appears without a colon. -/
def effectiveLine (tags : List Str) (active_quote : Bool) (line : Str) : Str :=
  let line := if active_quote && "\"".data.isPrefixOf line then line.drop 1 else line
  if tags.any (fun x => containsSub line x) && !containsSub line ":".data then
    "<!-- potential missing speaker tag -->".data ++ line
  else line

/-- Python `' '.join([a.strip(), b.strip()]).strip()`. -/
def joinStrip (a b : Str) : Str :=
  pyStrip (pyStrip a ++ " ".data ++ pyStrip b)

/-- One iteration of the `combine_preprocessed_captions` loop (default
language `'en'`) at index `i`. -/
def combine_step (tags : List Str) (pc : List Str) (s : CombState) (i : Nat) : CombState :=
  let line := pc.getD i []
  if !s.during_intro && !s.intro_done &&
     (containsSub line "♪ It\x27s Thursday night ♪".data ||
      containsSub (pyLower (pyStrip line)) "♪ critical".data) then
    { s with during_intro := true }
  else if s.during_intro &&
          (welcome_back line ||
           ["flames".data, "fire".data, "wind".data].any
             (fun x => containsSub (pyLower line) x)) then
    if welcome_back line then
      { s with during_intro := false, intro_done := true,
               line_in_progress :=
                 s.line_in_progress ++ "\n\n== Part I ==\n\n".data ++ line }
    else
      { s with during_intro := false, intro_done := true,
               line_in_progress := s.line_in_progress ++ "\n\n== Part I ==".data }
  else if s.during_intro then s
  else
    let line := effectiveLine tags s.active_quote line
    let quote_count := pyCount (removeComments line) "\"".data
    let s := { s with active_quote :=
                 if !s.active_quote && quote_count % 2 != 0 then true
                 else s.active_quote }
    if speakerMatch line then
      { s with fixed_lines :=
                 if s.line_in_progress ≠ [] then s.fixed_lines ++ [s.line_in_progress]
                 else s.fixed_lines,
               line_in_progress := line }
    else if parenLineMatch (pyStrip line) && !s.active_quote then
      if i + 1 ≥ pc.length then { s with fixed_lines := s.fixed_lines ++ [line] }
      else
        let prev_line := if i ≠ 0 then pc.getD (i - 1) [] else []
        let next_line := pc.getD (i + 1) []
        if speakerMatch next_line && !endsWithColon prev_line then
          { s with fixed_lines := s.fixed_lines ++ [s.line_in_progress, line],
                   line_in_progress := [] }
        else
          let lip := joinStrip s.line_in_progress line
          let qc := pyCount (removeComments lip) "\"".data
          { s with line_in_progress := lip,
                   active_quote := if qc % 2 = 0 then false else s.active_quote }
    else if s.line_in_progress ≠ [] then
      let lip := joinStrip s.line_in_progress line
      let qc := pyCount (removeComments lip) "\"".data
      { s with line_in_progress := lip,
               active_quote := if qc % 2 = 0 then false else s.active_quote }
    else s

/-- The combine-loop state after the first `k` lines (default language). -/
def combine_state_at (tags : List Str) (pc : List Str) (k : Nat) : CombState :=
  (List.range k).foldl (combine_step tags pc) ⟨false, false, false, [], []⟩

/-- The `fixed_lines` list of `combine_preprocessed_captions` after the final
`fixed_lines.append(line_in_progress)`. -/
def combine_fixed_lines (tags : List Str) (pc : List Str) : List Str :=
  let s := combine_state_at tags pc pc.length
  s.fixed_lines ++ [s.line_in_progress]

/-- `combine_preprocessed_captions` (default language `'en'`). -/
def combine_preprocessed_captions (tags : List Str) (pc : List Str) : Str :=
  pyJoin "\n\n".data (combine_fixed_lines tags pc)

/-- `re.search('[A-Z]+', x).group()`: the first maximal uppercase run. -/
def firstUpperRun (w : Str) : Str :=
  (w.dropWhile (fun c => !c.isUpper)).takeWhile Char.isUpper

/-- Regex word characters `[A-Za-z0-9_]`. -/
def isWordChar (c : Char) : Bool :=
  c.isAlpha || c.isDigit || c = '_'

/-- After an uppercase character, the rest of its uppercase run ends at a word
boundary (end of string or a non-word character). -/
def boundedUpperTail (rest : Str) : Bool :=
  match rest.dropWhile Char.isUpper with
  | [] => true
  | d :: _ => !isWordChar d

/-- Scanner for `re.search(r'\b[A-Z]+\b', x)` truthiness. -/
def hasBURAux (prevWord : Bool) : Str → Bool
  | [] => false
  | c :: rest =>
    (!prevWord && c.isUpper && boundedUpperTail rest) || hasBURAux (isWordChar c) rest

/-- `re.search(r'\b[A-Z]+\b', x)` truthiness. -/
def hasBoundedUpperRun (w : Str) : Bool :=
  hasBURAux false w

/-- Python set equality between two deduplicated element lists. -/
def listSetEq [DecidableEq α] (a b : List α) : Bool :=
  a.all (· ∈ b) && b.all (· ∈ a)

/-- Python `repr` of a list of strings as interpolated into an f-string. -/
def pyReprStrList (xs : List Str) : Str :=
  "[".data ++ pyJoin ", ".data (xs.map (fun s => "\x27".data ++ s ++ "\x27".data)) ++ "]".data

/-- `check_ts_names` (default language): collect the `prefix:` words, compare
the lowercase remainder with `{'and'}` and the uppercase runs with the tag
set, and return the accumulated warning text (empty when no standard tag
occurs at all).  Python iterates over `set` objects when building the two
warning messages; the embedded set order is first occurrence. -/
def check_ts_names (tags : List Str) (transcript : Str) : Str :=
  let transcript_names :=
    pyJoin " ".data
      (((pySplitlines transcript).filter (fun x => containsSub x ":".data)).map
        (fun x => (splitChar ':' x).headD []))
  let words := pySplitWs transcript_names
  let capital_names := pySet ((words.filter hasBoundedUpperRun).map firstUpperRun)
  let other_names :=
    pySet (words.filter
      (fun x => !(x.any Char.isUpper) || !(firstUpperRun x ∈ capital_names)))
  if !(tags.any fun tag => containsSub transcript tag) then []
  else
    let e1 :=
      if listSetEq other_names ["and".data] then []
      else
        let errors := other_names.filter (fun x => x ≠ "and".data)
        "Words besides \x27and\x27 in lower case for speaker names: ".data ++
          pyReprStrList errors ++ "\n".data
    let e2 :=
      if capital_names.all (· ∈ tags) then []
      else
        let names := capital_names.filter (fun x => !(x ∈ tags))
        "Some speaker names potentially misspelled: ".data ++
          pyReprStrList names ++ "\n".data
    e1 ++ e2

/-- `process_errors`: prepend the comment-wrapped warnings, if any. -/
def process_errors (tags : List Str) (ts : Str) : Str :=
  let e := check_ts_names tags ts
  if e ≠ [] then "<!--".data ++ e ++ "-->\n\n".data ++ ts else ts

/-- `process_captions` (default language): divide, flag duplicates, combine,
and prepend the `== Pre-show ==` heading; also exposes the duplicate marks
recorded along the way. -/
def process_captions (tags : List Str) (captions : List CaptionM) : Str × List (Str × Int) :=
  let cl := divide_captions_by_speaker captions
  let fa := flag_duplicate_captions cl
  ("== Pre-show ==\n".data ++ combine_preprocessed_captions tags fa.pre, fa.dupes)

/-- The duplicate marks recorded while building a transcript from `captions`
(the `dupe_lines` entry for the built language). -/
def dupe_lines_of (captions : List CaptionM) : List (Str × Int) :=
  (flag_duplicate_captions (divide_captions_by_speaker captions)).dupes

/-- Steps 1–3 of `process_transcript` (default language): combine and flag,
replace curly quotes and apostrophes, wikify html markup. -/
def process_transcript_head (tags : List Str) (captions : List CaptionM) : Str :=
  let ts := (process_captions tags captions).1
  let ts := pyReplace ts "“".data "\"".data
  let ts := pyReplace ts "”".data "\"".data
  let ts := pyReplace ts "‘".data "\x27".data
  let ts := pyReplace ts "’".data "\x27".data
  wikify_html_string ts

/-- Steps 5–7 of `process_transcript` (default language): optional cleanup
tag, warning comments, and the navigation/category furniture.  `dupes` is
`self.dupe_lines.get(language)` at step 7. -/
def process_transcript_tail (tags : List Str) (ep : EpM)
    (dupes : List (Str × Int)) (ts : Str) : Str :=
  let ts :=
    if !(tags.any fun tag => containsSub ts tag) then
      "\x7b\x7bcleanup|speaker tags not found\x7d\x7d\n\n".data ++ ts
    else ts
  let ts := process_errors tags ts
  "\x7b\x7bTranscript-Nav\x7d\x7d\n__FORCETOC__\n\n".data ++ ts ++
    "\n\x7b\x7bTranscript-Nav\x7d\x7d\n".data ++
    "[[".data ++ ("Category:".data ++ ep.transcript_category) ++ "]]".data ++
    "\n[[".data ++
    (if dupes ≠ [] then "Category:Transcripts with duplicate lines".data else []) ++
    "]]".data

/-- `process_transcript` for the default language `'en'` with the default
options (`ignore_break=False`): the seven numbered steps of the source.
Step 4 (the Breakfinder) can raise `AssertionError`. -/
def process_transcript (tags : List Str) (captions : List CaptionM) (ep : EpM) :
    PyResult Str :=
  match breakfinder tags (process_transcript_head tags captions) ep with
  | .err e => .err e
  | .ok ts => .ok (process_transcript_tail tags ep (process_captions tags captions).2 ts)

/-- `captions_download` for one language: prefer the manually created track,
fall back to the generated one.  When neither exists, the source prints a
message and reaches `return captions` with the local variable `captions`
never assigned (it is only assigned inside `if transcript:`), so Python
raises `UnboundLocalError`. -/
def captions_download (manual generated : Option (List CaptionM)) :
    PyResult (List CaptionM) :=
  match manual with
  | some c => .ok c
  | none =>
    match generated with
    | some c => .ok c
    | none => .err .unboundLocalError

/-- `download_and_build_transcript` with the default options
(`try_local_file=True`, `force_redownload=False`): use the local JSON file
when present and non-empty, otherwise download, then build via
`process_transcript`. -/
def download_and_build_transcript (tags : List Str)
    (localFile manual generated : Option (List CaptionM)) (ep : EpM) :
    PyResult Str :=
  let fetched :=
    match localFile with
    | some c => if c = [] then captions_download manual generated else .ok c
    | none => captions_download manual generated
  match fetched with
  | .err e => .err e
  | .ok captions => process_transcript tags captions ep

/-! ## The legacy pipeline's n-gram duplicate flagger (src/transcript.py). -/

/-- `nltk.ngrams(words, n)`: the `len(words) - n + 1` windows of length `n`
in positional order (none when `n > len(words)`). -/
def ngramsOfLen (n : Nat) (ws : List Str) : List (List Str) :=
  (List.range (ws.length + 1 - n)).map (fun i => (ws.drop i).take n)

/-- `text_to_ngram_dict(text)` with the default `ngram_min=4` and
`ngram_max=len(text.split())`, already passed through `sort_ngram_list`: an
association list from n-gram length (ascending, as the stable length sort and
`groupby` produce) to the n-grams of that length in positional order. -/
def text_to_ngram_dict (text : Str) : List (Nat × List (List Str)) :=
  let ws := pySplitWs text
  (List.range (ws.length + 1 - 4)).map (fun k => (k + 4, ngramsOfLen (k + 4) ws))

/-- The dict comprehension over `reversed(ngram_dict.items())` keeping, for
each length whose n-gram list has a repeat, the n-grams occurring more than
once (with multiplicity, in positional order). -/
def duplicate_ngrams (text : Str) : List (Nat × List (List Str)) :=
  (text_to_ngram_dict text).reverse.filterMap (fun kv =>
    if (pySet kv.2).length ≠ kv.2.length then
      some (kv.1, kv.2.filter (fun x => kv.2.count x > 1))
    else none)

/-- `longest_ngrams`: keep an n-gram only when its word set is not a subset of
the word set of an already kept one. -/
def longest_ngrams (text : Str) : List (List Str) :=
  let dupe_ngrams := concatMap (fun kv => pySet kv.2) (duplicate_ngrams text)
  dupe_ngrams.foldl
    (fun acc ngram =>
      if acc.any (fun x => ngram.all (fun w => w ∈ x)) then acc
      else acc ++ [ngram]) []

/-- The inner rewrite of one line of `Transcript.flag_duplicates`: append the
`potential duplicate` comment after an essentially back-to-back repeat that
starts lowercase or lacks terminal punctuation, and the `should not be a
duplicate` comment after any other maximal repeat. -/
def mark_line (line : Str) : Str :=
  (longest_ngrams line).foldl
    (fun new_line ngram =>
      let repeated_sentence := pyJoin " ".data ngram
      let first_idx := pyFind new_line repeated_sentence
      let second_idx := pyRFind new_line repeated_sentence
      let distance := second_idx - (first_idx + (repeated_sentence.length : Int))
      let sep :=
        if (-1 < distance ∧ distance < 3) ∧ pyCount line repeated_sentence = 2 ∧
           ((repeated_sentence.headD ' ').isLower ∨
            !(repeated_sentence.getLastD ' ' ∈ ['!', '?', '.'])) then
          repeated_sentence ++ "<!-- potential duplicate -->".data
        else
          repeated_sentence ++ "<!-- should not be a duplicate -->".data
      pyJoin sep (pyRsplit1 new_line repeated_sentence)) line

/-- One iteration of the `flag_duplicates` line loop: the accumulator is the
(whole-document) transcript being rewritten plus the `during_break` flag. -/
def flag_dupes_step (acc : Str × Bool) (line : Str) : Str × Bool :=
  if containsSub line "♪".data then acc
  else
    let db := if containsSub line "BREAK BEGINS".data then true else acc.2
    if containsSub line "BREAK ENDS".data then (acc.1, false)
    else if db then (acc.1, db)
    else
      let new_line := mark_line line
      (if new_line ≠ line then pyReplace acc.1 line new_line else acc.1, db)

/-- `Transcript.flag_duplicates` (legacy pipeline): iterate over the lines of
the original transcript, rewriting repeats in place. -/
def flag_duplicates (transcript : Str) : Str :=
  ((pySplitlines transcript).foldl flag_dupes_step (transcript, false)).1

/-! ## Concrete inputs used in the claim theorems. -/

/-- A non-exception episode (prefix other than `'M'`). -/
def epC : EpM := ⟨"C".data, "Campaign 3 episode transcripts".data⟩

/-- A transcript in which the break-announcement line occurs twice before the
moderator's welcome-back line. -/
def c1_transcript : Str :=
  "MATT: we\x27ll take a break\nfiller\nMATT: we\x27ll take a break\nMATT: welcome back\nx".data

/-- Breakfinder's output on `c1_transcript`. -/
def c1_out : Str := okStr (breakfinder SPEAKER_TAGS c1_transcript epC)

/-- The comment-wrapped form of the duplicated scenario line. -/
def dupHello : Str := dupeWrap "MATT: Hello.".data

/-- Scenario B of the spec, at the `caption_lines` level. -/
def c3_lines : List (Str × Int) :=
  [("MATT: Hello.".data, 0), ("MATT: Hello.".data, 1)]

/-- Scenario B of the spec, as raw captions entering the full build. -/
def c2_captions : List CaptionM :=
  [⟨"MATT: Hello.".data, 0⟩, ⟨"MATT: Hello.".data, 1⟩]

/-- The transcript document built from `c2_captions`. -/
def c2_out : Str := okStr (process_transcript SPEAKER_TAGS c2_captions epC)

/-- A caption stream that opens a quotation in its first line and then has a
second speaker line while the quotation is still open. -/
def c5_lines : List Str :=
  ["MATT: he said \"hello".data, "LAURA: what?".data]

/-- The combine-loop state just before the second line of `c5_lines` is
processed. -/
def c5_s1 : CombState := combine_state_at SPEAKER_TAGS c5_lines 1

/-- Scenario C of the spec: the two quote-spanning lines. -/
def c6_lines : List Str :=
  ["\"Well,\" LAURA: she said, \"that is odd.".data, "more text here.".data]

/-- Scenario C preceded by a speaker-attributed line. -/
def c6_lines3 : List Str :=
  ["MATT: hi.".data, "\"Well,\" LAURA: she said, \"that is odd.".data,
   "more text here.".data]

/-- A time-ordered two-fragment caption sequence, the second fragment carrying
an embedded newline that splits into two timed lines. -/
def c7_captions : List CaptionM :=
  [⟨"MATT: one.".data, 3⟩, ⟨"(laughs)\nMATT: ok.".data, 5⟩]

/-- A single caption line: Python's `caption_lines[i-1]` at `i = 0` compares
it against itself. -/
def c9_lines : List (Str × Int) :=
  [("MATT: Hello there my friend.".data, 0)]

/-- Two distinct caption lines producing no duplicate marks. -/
def c10_captions : List CaptionM :=
  [⟨"hello there.".data, 0⟩, ⟨"goodbye now.".data, 1⟩]

/-- The transcript document built from `c10_captions`. -/
def c10_out : Str := okStr (process_transcript SPEAKER_TAGS c10_captions epC)

/-! ## Helper lemmas -/

/-- A predicate preserved by every step of a fold holds of the fold. -/
theorem foldl_invariant {α β : Type _} (P : α → Prop) (f : α → β → α)
    (l : List β) (a : α) (h0 : P a) (hstep : ∀ x b, P x → P (f x b)) :
    P (l.foldl f a) := by
  induction l generalizing a with
  | nil => exact h0
  | cons b bs ih => exact ih (f a b) (hstep a b h0)

/-- A suffix of a list is a suffix of anything appended on its left. -/
theorem isSuffix_append_left {s l : Str} (x : Str) (h : s <:+ l) :
    s <:+ x ++ l :=
  h.trans (List.suffix_append x l)

/-- Python `int()` (truncation toward zero) is monotone on rationals. -/
theorem pyInt_mono {a b : ℚ} (hab : a ≤ b) : pyInt a ≤ pyInt b := by
  unfold pyInt
  split
  · split
    · exact Int.ceil_le_ceil hab
    · next hb =>
      have h1 : ⌈a⌉ ≤ 0 := Int.ceil_le.mpr (by push_cast; linarith)
      have h2 : (0 : Int) ≤ ⌊b⌋ := Int.le_floor.mpr (by push_cast; linarith)
      omega
  · next ha =>
    split
    · next hb => exact absurd (lt_of_le_of_lt hab hb) ha
    · exact Int.floor_le_floor hab

/-- A list whose elements are all equal to `k` is pairwise `≤`-sorted. -/
theorem pairwise_le_of_const {l : List Int} {k : Int}
    (h : ∀ x ∈ l, x = k) : l.Pairwise (· ≤ ·) := by
  induction l with
  | nil => exact .nil
  | cons a as ih =>
    refine .cons (fun b hb => ?_) (ih (fun x hx => h x (.tail a hx)))
    rw [h a (.head as), h b (.tail a hb)]

/-- Every start time in the output of the line splitter is the truncated
start time of one of the input captions. -/
theorem mem_divide_snd {captions : List CaptionM} {t : Int}
    (h : t ∈ (divide_captions_by_speaker captions).map Prod.snd) :
    ∃ c ∈ captions, t = pyInt c.start := by
  induction captions with
  | nil => simp [divide_captions_by_speaker, concatMap] at h
  | cons c cs ih =>
    rw [show divide_captions_by_speaker (c :: cs) =
          (caption_sublines c).map (fun l => (l, pyInt c.start)) ++
            divide_captions_by_speaker cs from rfl,
        List.map_append, List.mem_append] at h
    rcases h with h | h
    · refine ⟨c, .head cs, ?_⟩
      rw [List.map_map] at h
      rcases List.mem_map.mp h with ⟨l, _, rfl⟩
      rfl
    · rcases ih h with ⟨c', hc', rfl⟩
      exact ⟨c', .tail c hc', rfl⟩

/-! ## Claim theorems -/

set_option maxRecDepth 40000 in
/-- C1 (counterexample): on `c1_transcript` the Breakfinder returns
successfully with **two** break-begin markers and one end marker, because
`str.replace` rewrites every occurrence of the detected trigger line; so
it is not the case that it inserts exactly one begin marker or none. -/
theorem c1_counterexample :
    breakfinder SPEAKER_TAGS c1_transcript epC = .ok c1_out ∧
    pyCount c1_out "<!-- BREAK BEGINS".data = 2 ∧
    pyCount c1_out "BREAK ENDS".data = 1 ∧
    c1_out ≠ c1_transcript := by
  refine ⟨by decide, by decide, by decide, by decide⟩

/-- C1 (amended): whatever Breakfinder returns without raising is either the
input transcript unchanged, or text containing the substring `BREAK ENDS`
(the exact property its assertion enforces); the number of inserted begin
markers equals the number of occurrences of the detected trigger line, so it
can exceed one. -/
theorem c1_unchanged_or_contains_break_end (tags : List Str) (t : Str)
    (ep : EpM) (r : Str) (h : breakfinder tags t ep = .ok r) :
    r = t ∨ containsSub r "BREAK ENDS".data = true := by
  unfold breakfinder at h
  dsimp only at h
  generalize breakfinder_revised tags t = r0 at h
  split at h
  · next hc =>
    cases h
    exact hc
  · split at h
    · cases h
      exact .inl rfl
    · cases h

/-- Witness for C1: a transcript with no break is returned unchanged. -/
theorem c1_unchanged_or_contains_break_end_witness :
    "hello".data = "hello".data ∨
      containsSub "hello".data "BREAK ENDS".data = true :=
  c1_unchanged_or_contains_break_end SPEAKER_TAGS "hello".data epC
    "hello".data (by decide)

set_option maxRecDepth 100000 in
/-- C2 (counterexample): building the transcript from `c2_captions` records
two duplicate marks, yet neither mark's text occurs in the final document
returned by `process_transcript`: the comment-wrapped duplicate lines no
longer match the speaker pattern, so the combiner discards them before any
dialogue block exists. -/
theorem c2_counterexample :
    dupe_lines_of c2_captions = [(dupHello, 1), (dupHello, 0)] ∧
    process_transcript SPEAKER_TAGS c2_captions epC = .ok c2_out ∧
    containsSub c2_out dupHello = false := by
  refine ⟨by decide, by decide, by decide⟩

/-- C2 (amended): every recorded DuplicateMark's text is the html-wikified,
comment-wrapped duplicate line (`<!-- DUPLICATE ... -->`) paired with some
start time; occurrence in the final transcript is not guaranteed. -/
theorem c2_marks_are_wrapped_lines (cl : List (Str × Int)) (m : Str × Int)
    (h : m ∈ (flag_duplicate_captions cl).dupes) :
    ∃ l t, m = (wikify_html_string (dupeWrap l), t) := by
  unfold flag_duplicate_captions at h
  refine foldl_invariant
    (fun acc : FlagAcc => ∀ x ∈ acc.dupes, ∃ l t, x = (wikify_html_string (dupeWrap l), t))
    (flag_step cl) (List.range cl.length) ⟨[], []⟩ ?_ ?_ m h
  · intro x hx
    simp at hx
  · intro acc i hacc x hx
    simp only [flag_step] at hx
    split at hx <;> (try split at hx) <;> (try split at hx) <;>
      first
        | exact hacc x hx
        | (rcases List.mem_append.mp hx with hx | hx
           · exact hacc x hx
           · simp only [List.mem_singleton] at hx
             exact ⟨_, _, hx⟩)

/-- Witness for C2: the first mark recorded on the scenario input has the
wrapped-line shape. -/
theorem c2_marks_are_wrapped_lines_witness :
    ∃ l t, ((dupHello, 1) : Str × Int) = (wikify_html_string (dupeWrap l), t) :=
  c2_marks_are_wrapped_lines c3_lines (dupHello, 1) (by decide)

/-- C3 (counterexample): on Scenario B's input the detector does not remove
the second line — both lines stay in the stream as comment-wrapped copies —
and it emits two marks, whose text is the wrapped line, not `Hello.`
(index 0 is also flagged because Python's `caption_lines[i-1]` at `i = 0`
reads the last line). -/
theorem c3_counterexample :
    (flag_duplicate_captions c3_lines).pre = [dupHello, dupHello] ∧
    (flag_duplicate_captions c3_lines).dupes = [(dupHello, 1), (dupHello, 0)] := by
  refine ⟨by decide, by decide⟩

/-- C3 (amended): a non-blank, non-music, non-parenthetical line at index
`i > 0` equal to the preceding line is kept in the stream wrapped as
`<!-- DUPLICATE ... -->`, and exactly one mark — the wikified wrapped line
with the *previous* line's start time — is appended. -/
theorem c3_dupe_wrapped_with_prev_start (cl : List (Str × Int)) (acc : FlagAcc)
    (i : Nat) (h0 : i ≠ 0)
    (hs : pyStrip (cl.getD i ([], 0)).1 ≠ [])
    (hm : containsSub (cl.getD i ([], 0)).1 "♪".data = false)
    (he : (cl.getD i ([], 0)).1 = (cl.getD (i - 1) ([], 0)).1)
    (hp : startsParen (cl.getD i ([], 0)).1 = false) :
    flag_step cl acc i =
      ⟨acc.pre ++ [dupeWrap (cl.getD i ([], 0)).1],
       acc.dupes ++ [(wikify_html_string (dupeWrap (cl.getD i ([], 0)).1),
                      (cl.getD (i - 1) ([], 0)).2)]⟩ := by
  unfold flag_step
  dsimp only
  rw [if_neg h0, if_neg hs]
  have hd : flag_dupe_test (cl.getD i ([], 0)).1 (cl.getD (i - 1) ([], 0)).1 = true := by
    unfold flag_dupe_test
    rw [hm, ← he, hp]
    simp
  exact if_pos hd

/-- Witness for C3: the second line of Scenario B is wrapped and marked with
start time 0. -/
theorem c3_dupe_wrapped_with_prev_start_witness :
    flag_step c3_lines ⟨[], []⟩ 1 =
      ⟨[] ++ [dupeWrap (c3_lines.getD 1 ([], 0)).1],
       [] ++ [(wikify_html_string (dupeWrap (c3_lines.getD 1 ([], 0)).1),
               (c3_lines.getD 0 ([], 0)).2)]⟩ :=
  c3_dupe_wrapped_with_prev_start c3_lines ⟨[], []⟩ 1 (by decide) (by decide)
    (by decide) (by decide) (by decide)

/-- C4 (code bug): when no caption track exists for the requested language
(and no local file is cached), `captions_download` reaches `return captions`
with `captions` never assigned, so the build raises `UnboundLocalError`
instead of producing a furniture-wrapped empty transcript. -/
theorem c4_missing_track_raises :
    captions_download none none = .err .unboundLocalError ∧
    download_and_build_transcript SPEAKER_TAGS none none none epC =
      .err .unboundLocalError := by
  refine ⟨by decide, by decide⟩

/-- C5 (counterexample): on `c5_lines` the state before line 1 has an open
quotation (`active_quote = true`), yet processing line 1 — which matches the
speaker pattern — flushes the buffered utterance into `fixed_lines` and
starts a new block with that line. -/
theorem c5_counterexample :
    c5_s1.active_quote = true ∧
    c5_s1.line_in_progress = "MATT: he said \"hello".data ∧
    (combine_step SPEAKER_TAGS c5_lines c5_s1 1).fixed_lines =
      c5_s1.fixed_lines ++ [c5_s1.line_in_progress] ∧
    (combine_step SPEAKER_TAGS c5_lines c5_s1 1).line_in_progress =
      "LAURA: what?".data := by
  refine ⟨by decide, by decide, by decide, by decide⟩

/-- C5 (amended): the speaker-pattern test is not gated on `active_quote`:
once the intro is done, any line whose effective form matches the speaker
pattern flushes a non-empty utterance buffer and becomes the new buffer,
whatever the quotation state is. -/
theorem c5_speaker_flush_ignores_quote (tags : List Str) (pc : List Str)
    (i : Nat) (s : CombState)
    (h1 : s.during_intro = false) (h2 : s.intro_done = true)
    (h3 : speakerMatch (effectiveLine tags s.active_quote (pc.getD i [])) = true)
    (h4 : s.line_in_progress ≠ []) :
    (combine_step tags pc s i).fixed_lines =
      s.fixed_lines ++ [s.line_in_progress] ∧
    (combine_step tags pc s i).line_in_progress =
      effectiveLine tags s.active_quote (pc.getD i []) := by
  obtain ⟨di, idone, aq, fl, lip⟩ := s
  simp only at h1 h2 h3 h4
  subst h1 h2
  simp only [List.getD_eq_getElem?_getD] at h3
  simp [combine_step, h3, h4]

/-- Witness for C5: a concrete state with an open quotation and a non-empty
buffer is flushed by a speaker-pattern line. -/
theorem c5_speaker_flush_ignores_quote_witness :
    (combine_step SPEAKER_TAGS ["LAURA: ok.".data]
        ⟨false, true, true, [], "MATT: x.".data⟩ 0).fixed_lines =
      [] ++ ["MATT: x.".data] ∧
    (combine_step SPEAKER_TAGS ["LAURA: ok.".data]
        ⟨false, true, true, [], "MATT: x.".data⟩ 0).line_in_progress =
      effectiveLine SPEAKER_TAGS true (["LAURA: ok.".data].getD 0 []) :=
  c5_speaker_flush_ignores_quote SPEAKER_TAGS ["LAURA: ok.".data] 0
    ⟨false, true, true, [], "MATT: x.".data⟩ rfl rfl (by decide) (by decide)

/-- C6 (counterexample): on exactly the two Scenario C lines the combiner
produces no dialogue block at all — neither line matches the speaker pattern
(the first starts with a quotation mark) and there is no open block to extend,
so both are discarded and the result is empty. -/
theorem c6_counterexample :
    combine_fixed_lines SPEAKER_TAGS c6_lines = [[]] ∧
    combine_preprocessed_captions SPEAKER_TAGS c6_lines = [] := by
  refine ⟨by decide, by decide⟩

/-- C6 (amended): preceded by a speaker-attributed line, the two quote-spanning
lines are appended to that line's block by the continuation rule, yielding a
single DialogueBlock containing all three lines. -/
theorem c6_merge_after_speaker_line :
    combine_fixed_lines SPEAKER_TAGS c6_lines3 =
      ["MATT: hi. \"Well,\" LAURA: she said, \"that is odd. more text here.".data] := by
  decide

/-- C7: the line splitter preserves caption order and gives every sub-line its
fragment's truncated start time, so for a caption sequence whose start times
are non-decreasing (the CaptionSource contract) the output `TimedLine` start
times are non-decreasing in output order. -/
theorem c7_timedline_starts_monotone (captions : List CaptionM)
    (h : (captions.map CaptionM.start).Pairwise (· ≤ ·)) :
    ((divide_captions_by_speaker captions).map Prod.snd).Pairwise (· ≤ ·) := by
  induction captions with
  | nil => exact .nil
  | cons c cs ih =>
    rw [List.map_cons, List.pairwise_cons] at h
    obtain ⟨hc, hcs⟩ := h
    rw [show divide_captions_by_speaker (c :: cs) =
          (caption_sublines c).map (fun l => (l, pyInt c.start)) ++
            divide_captions_by_speaker cs from rfl,
        List.map_append, List.pairwise_append]
    refine ⟨?_, ih hcs, ?_⟩
    · apply pairwise_le_of_const
      intro x hx
      rw [List.map_map] at hx
      rcases List.mem_map.mp hx with ⟨l, _, rfl⟩
      rfl
    · intro a ha b hb
      rw [List.map_map] at ha
      rcases List.mem_map.mp ha with ⟨l, _, rfl⟩
      rcases mem_divide_snd hb with ⟨c', hc', rfl⟩
      exact pyInt_mono (hc c'.start (List.mem_map_of_mem CaptionM.start hc'))

/-- Witness for C7: a sorted two-fragment sequence, the second fragment
splitting into two sub-lines, yields non-decreasing start times. -/
theorem c7_timedline_starts_monotone_witness :
    ((divide_captions_by_speaker c7_captions).map Prod.snd).Pairwise (· ≤ ·) :=
  c7_timedline_starts_monotone c7_captions (by decide)

/-- C8 (counterexample): the n-gram flagger only considers n-grams of at
least four words, so the two-word repeats of Scenario E are never found:
both example lines pass through `flag_duplicates` unchanged, with no comment
inserted. -/
theorem c8_counterexample :
    flag_duplicates "I said I said hello to you".data =
      "I said I said hello to you".data ∧
    flag_duplicates "Watch out! Watch out!".data =
      "Watch out! Watch out!".data := by
  refine ⟨by decide, by decide⟩

/-- C8 (amended): for repeats of at least four words the described behaviour
does hold: an adjacent lowercase-starting repeat is marked with the
`potential duplicate` comment, and a capitalized, terminally punctuated
repeat with the `should not be a duplicate` comment. -/
theorem c8_four_word_repeats_flagged :
    flag_duplicates "he said hello there he said hello there".data =
      "he said hello there he said hello there<!-- potential duplicate -->".data ∧
    flag_duplicates "Watch out dear friend! Watch out dear friend!".data =
      "Watch out dear friend! Watch out dear friend!<!-- should not be a duplicate -->".data := by
  refine ⟨by decide, by decide⟩

/-- C9 (code bug): on a single-line input, `caption_lines[i-1]` at `i = 0` is
Python index `-1` — the line itself — so the first line is compared with
itself, marked as a duplicate, and recorded as a DuplicateMark, contradicting
the `i > 0` candidacy rule of the spec. -/
theorem c9_first_line_marked_as_duplicate :
    flag_duplicate_captions c9_lines =
      ⟨[dupeWrap "MATT: Hello there my friend.".data],
       [(dupeWrap "MATT: Hello there my friend.".data, 0)]⟩ := by
  decide

/-- C10: when no duplicate line was flagged for the built language, step 7
appends the maintenance-category brackets around the empty category name, so
any successfully built document ends with the literal text `[[]]` (preceded
by a newline). -/
theorem c10_ends_with_empty_category (tags : List Str)
    (captions : List CaptionM) (ep : EpM) (ts : Str)
    (hd : dupe_lines_of captions = [])
    (h : process_transcript tags captions ep = .ok ts) :
    "\n[[]]".data <:+ ts := by
  unfold process_transcript at h
  split at h
  · cases h
  · cases h
    have hd' : (process_captions tags captions).2 = [] := hd
    rw [hd']
    unfold process_transcript_tail
    dsimp only
    simp only [ne_eq, eq_self_iff_true, not_true, if_false, List.append_assoc,
      List.nil_append]
    refine isSuffix_append_left _ (isSuffix_append_left _ (isSuffix_append_left _
      (isSuffix_append_left _ (isSuffix_append_left _ (isSuffix_append_left _
        (isSuffix_append_left _ ?_))))))
    decide

/-- Witness for C10: the document built from two distinct caption lines ends
with `[[]]`. -/
theorem c10_ends_with_empty_category_witness :
    "\n[[]]".data <:+ c10_out :=
  c10_ends_with_empty_category SPEAKER_TAGS c10_captions epC c10_out
    (by decide) (by decide)





